import Mathlib

/-!
Verification of the HDL BusPro air-conditioning protocol core.

The definitions below are a shallow embedding of the repository code:
the CRC-16 engine, frame codec, schema discovery, packet builder and
status decoder from hdl_ac_core.py, and the per-device status
reconciliation logic from climate.py.  Machine bytes are modelled as
Nat with explicit masking; byte buffers as List Nat; fallible code as
Except or Option; wall-clock time as Rat.
-/

namespace BusproAC

/-! ## CRC engine (hdl_ac_core.py, generate_crc_table / compute_hdl_crc) -/

/-- One round of the polynomial division step: shift left once and
apply the 0x1021 polynomial when the high bit of the 16-bit register
is set, masking to 16 bits (the body of the inner loop of
generate_crc_table). -/
def crcStep (crc : Nat) : Nat :=
  (if crc &&& 32768 ≠ 0 then (crc <<< 1) ^^^ 4105 else crc <<< 1) &&& 65535

/-- Eight applications of crcStep (range(8) loop). -/
def crcSteps8 (crc : Nat) : Nat :=
  crcStep (crcStep (crcStep (crcStep (crcStep (crcStep (crcStep (crcStep crc)))))))

/-- Entry i of the 256-entry table built by generate_crc_table: byte i
shifted to the high position, then eight polynomial steps. -/
def CRC_TABLE (i : Nat) : Nat := crcSteps8 (i <<< 8)

/-- The per-byte update of compute_hdl_crc: index is the high byte of
the running CRC xored with the input byte; the new CRC is the old one
shifted left by 8 xored with the table entry, masked to 16 bits. -/
def crcUpdate (crc b : Nat) : Nat :=
  (((crc <<< 8) &&& 65535) ^^^ CRC_TABLE (((crc >>> 8) ^^^ b) &&& 255)) &&& 65535

/-- Running the table-driven CRC over a byte list, starting from 0. -/
def crcFold (data : List Nat) : Nat := data.foldl crcUpdate 0

/-- compute_hdl_crc: runs the CRC over its input excluding the two
trailing CRC positions, and returns the 16-bit CRC. -/
def compute_hdl_crc (data_with_length : List Nat) : Nat :=
  crcFold (data_with_length.take (data_with_length.length - 2))

/-- High CRC byte, as returned by compute_hdl_crc. -/
def crc_hi (c : Nat) : Nat := (c >>> 8) &&& 255

/-- Low CRC byte, as returned by compute_hdl_crc. -/
def crc_lo (c : Nat) : Nat := c &&& 255

/-! Spec-side reference: the bit-by-bit CRC-16 definition, with no
table.  Each input byte is shifted into the top of the 16-bit register
and the polynomial is applied bit by bit eight times. -/

/-- Bit-by-bit reference update: xor the byte into the high byte of
the register and apply eight polynomial steps directly. -/
def crcBitUpdate (crc b : Nat) : Nat := crcSteps8 ((crc ^^^ (b <<< 8)) &&& 65535)

/-- Bit-by-bit reference CRC over a byte list, starting from 0, with
no seed parameter and no final xor. -/
def crcBitRef (data : List Nat) : Nat := data.foldl crcBitUpdate 0

/-! ### Arithmetic helper lemmas -/

theorem xor_left_comm (a b c : Nat) : a ^^^ (b ^^^ c) = b ^^^ (a ^^^ c) := by
  rw [← Nat.xor_assoc, Nat.xor_comm a b, Nat.xor_assoc]

theorem shiftLeft_xor_distrib (x y n : Nat) :
    (x ^^^ y) <<< n = (x <<< n) ^^^ (y <<< n) := by
  apply Nat.eq_of_testBit_eq
  intro i
  simp [Nat.testBit_shiftLeft, Nat.testBit_xor, Bool.and_xor_distrib_left]

theorem and_bit15 (x : Nat) : x &&& 32768 = 0 ∨ x &&& 32768 = 32768 := by
  have h := Nat.and_two_pow x 15
  norm_num at h
  cases hx : x.testBit 15 <;> rw [hx] at h <;> simp at h <;> omega

theorem crcStep_xor (x y : Nat) : crcStep (x ^^^ y) = crcStep x ^^^ crcStep y := by
  unfold crcStep
  have hxy : (x ^^^ y) &&& 32768 = (x &&& 32768) ^^^ (y &&& 32768) :=
    Nat.and_xor_distrib_right
  rcases and_bit15 x with hx | hx <;> rcases and_bit15 y with hy | hy <;>
    simp only [hxy, hx, hy, Nat.xor_zero, Nat.zero_xor, Nat.xor_self,
      ne_eq, not_true_eq_false, not_false_eq_true, if_true, if_false,
      reduceIte] <;>
    rw [← Nat.and_xor_distrib_right] <;>
    simp [shiftLeft_xor_distrib, Nat.xor_assoc, Nat.xor_comm, xor_left_comm]

theorem crcSteps8_xor (x y : Nat) :
    crcSteps8 (x ^^^ y) = crcSteps8 x ^^^ crcSteps8 y := by
  simp [crcSteps8, crcStep_xor]

set_option maxRecDepth 4096 in
theorem crcSteps8_small : ∀ r, r < 256 → crcSteps8 r = r <<< 8 := by decide

theorem crcStep_le (c : Nat) : crcStep c ≤ 65535 := Nat.and_le_right

theorem crcSteps8_lt (c : Nat) : crcSteps8 c < 65536 :=
  Nat.lt_succ_of_le (crcStep_le _)

theorem CRC_TABLE_lt (i : Nat) : CRC_TABLE i < 65536 := crcSteps8_lt _

theorem mask16_of_lt {x : Nat} (h : x < 65536) : x &&& 65535 = x := by
  have h2 : x < 2 ^ 16 := by norm_num; omega
  have := Nat.and_pow_two_sub_one_of_lt_two_pow h2
  norm_num at this
  exact this

theorem mask255_of_lt {x : Nat} (h : x < 256) : x &&& 255 = x := by
  have h2 : x < 2 ^ 8 := by norm_num; omega
  have := Nat.and_pow_two_sub_one_of_lt_two_pow h2
  norm_num at this
  exact this

theorem shiftRight8_lt {c : Nat} (h : c < 65536) : c >>> 8 < 256 := by
  rw [Nat.shiftRight_eq_div_pow]
  norm_num
  omega

theorem xor_lt_65536 {x y : Nat} (hx : x < 65536) (hy : y < 65536) :
    x ^^^ y < 65536 := by
  have h1 : x < 2 ^ 16 := by norm_num; omega
  have h2 : y < 2 ^ 16 := by norm_num; omega
  have := Nat.xor_lt_two_pow h1 h2
  norm_num at this
  exact this

theorem xor_lt_256 {x y : Nat} (hx : x < 256) (hy : y < 256) :
    x ^^^ y < 256 := by
  have h1 : x < 2 ^ 8 := by norm_num; omega
  have h2 : y < 2 ^ 8 := by norm_num; omega
  have := Nat.xor_lt_two_pow h1 h2
  norm_num at this
  exact this

theorem shiftLeft8_and_mask (c : Nat) : (c <<< 8) &&& 65535 = (c &&& 255) <<< 8 := by
  apply Nat.eq_of_testBit_eq
  intro i
  rw [show (65535 : Nat) = 2 ^ 16 - 1 by norm_num,
    show (255 : Nat) = 2 ^ 8 - 1 by norm_num,
    Nat.and_pow_two_sub_one_eq_mod, Nat.and_pow_two_sub_one_eq_mod]
  simp only [Nat.testBit_mod_two_pow, Nat.testBit_shiftLeft, ge_iff_le]
  by_cases h8 : 8 ≤ i <;> by_cases h16 : i < 16 <;>
    simp [h8, h16] <;> omega

theorem hi_lo_decomp (c : Nat) : ((c >>> 8) <<< 8) ^^^ (c &&& 255) = c := by
  apply Nat.eq_of_testBit_eq
  intro i
  rw [show (255 : Nat) = 2 ^ 8 - 1 by norm_num, Nat.and_pow_two_sub_one_eq_mod]
  simp only [Nat.testBit_xor, Nat.testBit_shiftLeft, Nat.testBit_shiftRight,
    Nat.testBit_mod_two_pow, ge_iff_le]
  by_cases h8 : 8 ≤ i
  · have : 8 + (i - 8) = i := by omega
    simp [h8, this, Nat.lt_irrefl, show ¬ i < 8 by omega]
  · simp [h8, show i < 8 by omega]

theorem CRC_TABLE_xor (a b : Nat) :
    CRC_TABLE (a ^^^ b) = CRC_TABLE a ^^^ CRC_TABLE b := by
  unfold CRC_TABLE
  rw [shiftLeft_xor_distrib, crcSteps8_xor]

theorem crcSteps8_split (c : Nat) :
    crcSteps8 c = CRC_TABLE (c >>> 8) ^^^ ((c &&& 255) <<< 8) := by
  conv_lhs => rw [← hi_lo_decomp c]
  rw [crcSteps8_xor]
  rw [crcSteps8_small (c &&& 255) (Nat.lt_succ_of_le Nat.and_le_right)]
  rfl

theorem crcUpdate_eq_bit {c b : Nat} (hc : c < 65536) (hb : b < 256) :
    crcUpdate c b = crcBitUpdate c b := by
  have hbs : b <<< 8 < 65536 := by
    rw [Nat.shiftLeft_eq]
    norm_num
    omega
  have hxlt : c ^^^ (b <<< 8) < 65536 := xor_lt_65536 hc hbs
  have hidx : ((c >>> 8) ^^^ b) &&& 255 = (c >>> 8) ^^^ b :=
    mask255_of_lt (xor_lt_256 (shiftRight8_lt hc) hb)
  have houter : ∀ x y : Nat, x < 65536 → y < 65536 → (x ^^^ y) &&& 65535 = x ^^^ y :=
    fun x y hx hy => mask16_of_lt (xor_lt_65536 hx hy)
  unfold crcUpdate crcBitUpdate
  rw [hidx, mask16_of_lt hxlt, crcSteps8_xor, crcSteps8_split c]
  rw [show crcSteps8 (b <<< 8) = CRC_TABLE b from rfl]
  rw [CRC_TABLE_xor, shiftLeft8_and_mask]
  have hsl : (c &&& 255) <<< 8 < 65536 := by
    have h255 : c &&& 255 ≤ 255 := Nat.and_le_right
    rw [Nat.shiftLeft_eq]
    norm_num
    omega
  rw [houter _ _ hsl (xor_lt_65536 (CRC_TABLE_lt _) (CRC_TABLE_lt _))]
  simp [Nat.xor_assoc, Nat.xor_comm, xor_left_comm]

theorem crcUpdate_lt (c b : Nat) : crcUpdate c b < 65536 :=
  Nat.lt_succ_of_le Nat.and_le_right

theorem crcFold_eq_bitRef_aux :
    ∀ l : List Nat, (∀ x ∈ l, x < 256) → ∀ c, c < 65536 →
      l.foldl crcUpdate c = l.foldl crcBitUpdate c := by
  intro l
  induction l with
  | nil => intro _ c _; rfl
  | cons a t ih =>
    intro h c hc
    simp only [List.foldl_cons]
    rw [← crcUpdate_eq_bit hc (h a (by simp))]
    exact ih (fun x hx => h x (by simp [hx])) _ (crcUpdate_lt c a)

/-- C2: for every byte sequence, the table-driven CRC engine
(compute_hdl_crc with the table of generate_crc_table, running CRC
starting at 0x0000, index = high byte xor input byte, shift-and-xor
update masked to 16 bits, no seed and no final xor) computes exactly
the bit-by-bit reference CRC-16 with polynomial 0x1021 over the bytes
it processes (its input minus the two trailing CRC positions). -/
theorem crc_engine_matches_bitwise_reference (data : List Nat)
    (h : ∀ x ∈ data, x < 256) :
    compute_hdl_crc data = crcBitRef (data.take (data.length - 2)) := by
  unfold compute_hdl_crc crcFold crcBitRef
  exact crcFold_eq_bitRef_aux _
    (fun x hx => h x (List.take_subset _ _ hx)) 0 (by norm_num)

/-- Witness for C2 at a concrete frame body. -/
theorem crc_engine_matches_bitwise_reference_witness :
    (∀ x ∈ [21, 1, 2, 3, 4, 0, 0], x < 256) ∧
      compute_hdl_crc [21, 1, 2, 3, 4, 0, 0] =
        crcBitRef ([21, 1, 2, 3, 4, 0, 0].take ([21, 1, 2, 3, 4, 0, 0].length - 2)) :=
  ⟨by decide, crc_engine_matches_bitwise_reference _ (by decide)⟩

/-! ## Frame codec (hdl_ac_core.py, split_packet / validate_frame) -/

instance instDecEqExcept {e a : Type} [DecidableEq e] [DecidableEq a] :
    DecidableEq (Except e a)
  | .ok x, .ok y =>
    if h : x = y then isTrue (by rw [h])
    else isFalse (fun hh => by cases hh; exact h rfl)
  | .ok _, .error _ => isFalse (fun hh => Except.noConfusion hh)
  | .error _, .ok _ => isFalse (fun hh => Except.noConfusion hh)
  | .error x, .error y =>
    if h : x = y then isTrue (by rw [h])
    else isFalse (fun hh => by cases hh; exact h rfl)

/-- Position of the first occurrence of two consecutive 0xAA bytes
(the frame marker scan of split_packet and parse_status_packet). -/
def findAA : List Nat → Option Nat
  | a :: b :: rest =>
    if a = 170 ∧ b = 170 then some 0 else (findAA (b :: rest)).map (· + 1)
  | _ => none

/-- Lowercase hex digit characters accepted by split_packet. -/
def hexDigits : List Char := "0123456789abcdef".data

/-- Numeric value of a lowercase hex digit (ASCII arithmetic). -/
def hexVal (c : Char) : Nat :=
  if c.isDigit then c.toNat - 48 else c.toNat - 87

/-- Pairs hex digits into bytes; none on an odd-length digit list
(binascii.unhexlify raising on odd input). -/
def unhex : List Char → Option (List Nat)
  | [] => some []
  | [_] => none
  | a :: b :: rest => (unhex rest).map (fun l => (16 * hexVal a + hexVal b) :: l)

/-- split_packet: lowercases and keeps only hex digits, decodes them to
bytes, then splits at the first 0xAA 0xAA marker into the opaque
preamble and the frame. -/
def split_packet (s : String) : Except String (List Nat × List Nat) :=
  let cleaned := (s.data.map Char.toLower).filter (fun c => hexDigits.contains c)
  match unhex cleaned with
  | none => .error "Odd-length string"
  | some packet_bytes =>
    match findAA packet_bytes with
    | none => .error "0xAA 0xAA marker not found in packet"
    | some i => .ok (packet_bytes.take i, packet_bytes.drop i)

/-- validate_frame: checks minimum size, the marker, the
self-including length byte, and the trailing big-endian CRC. -/
def validate_frame (frame : List Nat) (name : String) : Except String Unit :=
  if frame.length < 4 then .error (name ++ ": Frame too short")
  else if ¬ (frame.getD 0 0 = 170 ∧ frame.getD 1 0 = 170) then
    .error (name ++ ": Frame does not start with 0xAA 0xAA")
  else
    let length := frame.getD 2 0
    if frame.length - 3 ≠ length - 1 then
      .error (name ++ ": Frame length mismatch")
    else
      let length_and_data := frame.drop 2
      if length_and_data.length < 3 then .error (name ++ ": Data too short for CRC")
      else
        let c := compute_hdl_crc length_and_data
        if length_and_data.getD (length_and_data.length - 2) 0 = crc_hi c ∧
            length_and_data.getD (length_and_data.length - 1) 0 = crc_lo c then
          .ok ()
        else .error (name ++ ": CRC mismatch")

/-! ## Protocol schema and discovery (hdl_ac_core.py, discover_protocol) -/

/-- Template mapping given to discovery: the dictionary keys off, on,
on_1.14, cool_23c, fan_24c and status_request, each an optional hex
string. -/
structure Templates where
  off : Option String
  on_key : Option String
  on14 : Option String
  cool_23c : Option String
  fan_24c : Option String
  status_request : Option String

/-- Protocol schema, the dictionary returned by discover_protocol. -/
structure Schema where
  address_positions : List Nat
  opcode_positions : List Nat
  temperature_position : Option Nat
  mode_position : Option Nat
  fan_speed_position : Option Nat
  base_off_frame : List Nat
  base_on_frame : List Nat
  base_cool_frame : Option (List Nat)
  base_status_request_frame : Option (List Nat)
  preamble : List Nat
deriving DecidableEq

/-- Data area of a frame: frame bytes 3 onward minus the trailing two
CRC bytes (frame sliced from 3 to -2). -/
def dataArea (frame : List Nat) : List Nat :=
  (frame.drop 3).take (frame.length - 5)

/-- Byte positions at which two data areas differ, over the indices
both share. -/
def diffPositions (a b : List Nat) : List Nat :=
  (List.range (min a.length b.length)).filter (fun i => a.getD i 0 ≠ b.getD i 0)

/-- Temperature/mode offset assignment loop of discover_protocol: a
difference of exactly 1 marks the temperature byte, of exactly 2 the
mode byte; later positions overwrite earlier ones. -/
def tempModeScan (dc df : List Nat) : Option Nat × Option Nat :=
  (diffPositions dc df).foldl
    (fun acc i =>
      let v23 : Int := dc.getD i 0
      let v24 : Int := df.getD i 0
      if v24 - v23 = 1 then (some i, acc.2)
      else if v24 - v23 = 2 then (acc.1, some i)
      else acc)
    (none, none)

/-- Splitting followed by validation of one named reference template,
as discover_protocol performs for each template in turn. -/
def loadTemplate (hx : String) (name : String) :
    Except String (List Nat × List Nat) := do
  let p ← split_packet hx
  validate_frame p.2 name
  pure p

/-- Cool/fan exemplar processing of discover_protocol: returns the
temperature offset, the mode offset and the cool base frame when both
exemplars are supplied; failures abort. -/
def discoverTempMode (coolT fanT : Option String) :
    Except String (Option Nat × Option Nat × Option (List Nat)) :=
  match coolT, fanT with
  | some coolHex, some fanHex => do
    let pc ← loadTemplate coolHex "cool_23c"
    let pf ← loadTemplate fanHex "fan_24c"
    let tm := tempModeScan (dataArea pc.2) (dataArea pf.2)
    pure (tm.1, tm.2, some pc.2)
  | _, _ => pure (none, none, none)

/-- Status-request template loading of discover_protocol: any failure
is caught (only logged in the source) and yields an absent frame. -/
def loadStatusRequest (sreqT : Option String) : Option (List Nat) :=
  match sreqT with
  | some sreqHex =>
    match loadTemplate sreqHex "status_request" with
    | .ok p => some p.2
    | .error _ => none
  | none => none

/-- discover_protocol: validates the required templates, diffs them to
find opcode and address offsets, optionally learns temperature and
mode offsets from the cool/fan exemplar pair, and loads the optional
status-request template, swallowing its failures. -/
def discover_protocol (t : Templates) : Except String Schema := do
  let offHex ← match t.off with
    | some s => pure s
    | none => .error "Missing off template for 1.13"
  let onHex ← match t.on_key with
    | some s => pure s
    | none => .error "Missing on template for 1.13"
  let on14Hex ← match t.on14 with
    | some s => pure s
    | none => .error "Missing on_1.14 template"
  let po ← loadTemplate offHex "off"
  let pn ← loadTemplate onHex "on"
  let pn14 ← loadTemplate on14Hex "on_1.14"
  let opcode_positions := diffPositions (dataArea po.2) (dataArea pn.2)
  if opcode_positions = [] then
    .error "Could not discover opcode positions"
  let address_positions := diffPositions (dataArea pn.2) (dataArea pn14.2)
  if address_positions = [] then
    .error "Could not discover address positions"
  let tmc ← discoverTempMode t.cool_23c t.fan_24c
  pure {
    address_positions := address_positions
    opcode_positions := opcode_positions
    temperature_position := tmc.1
    mode_position := tmc.2.1
    fan_speed_position := some 15
    base_off_frame := po.2
    base_on_frame := pn.2
    base_cool_frame := tmc.2.2
    base_status_request_frame := loadStatusRequest t.status_request
    preamble := po.1 }

/-! ## Packet builder (hdl_ac_core.py, build_packet) -/

/-- Checked byte write into a buffer: fails like a Python bytearray
assignment when the index is out of range or the value is not a
byte. -/
def setB (l : List Nat) (i v : Nat) : Except String (List Nat) :=
  if i < l.length ∧ v < 256 then .ok (l.set i v) else .error "IndexError"

/-- Lowercasing of a verb string (str.lower in the source). -/
def lowerStr (s : String) : String := ⟨s.data.map Char.toLower⟩

/-- Base template selection of build_packet: off uses the off
reference; on uses the cool reference only when it is present
(truthy, i.e. non-empty) and a temperature or hvac_mode override is
supplied; any other verb is rejected. -/
def chooseBase (verb : String) (s : Schema)
    (temperature hvac_mode : Option Nat) : Except String (List Nat) :=
  if lowerStr verb = "off" then .ok s.base_off_frame
  else if lowerStr verb = "on" then
    match s.base_cool_frame with
    | some cf =>
      if cf ≠ [] ∧ (temperature.isSome ∨ hvac_mode.isSome) then .ok cf
      else .ok s.base_on_frame
    | none => .ok s.base_on_frame
  else .error ("Unknown verb: " ++ verb)

/-- Loop over the discovered address positions: only offsets 6 and 7
are acted on, receiving the subnet and device bytes. -/
def writeAddrPositions (frame : List Nat) (positions : List Nat)
    (subnet device : Nat) : Except String (List Nat) :=
  positions.foldlM
    (fun f pos =>
      if pos = 6 then setB f (3 + pos) subnet
      else if pos = 7 then setB f (3 + pos) device
      else pure f)
    frame

/-- Compute the CRC of a length-and-data buffer and write it into the
last two positions (append_hdl_crc). -/
def append_hdl_crc (l : List Nat) : Except String (List Nat) :=
  if 2 ≤ l.length then
    let c := compute_hdl_crc l
    .ok (l.take (l.length - 2) ++ [crc_hi c, crc_lo c])
  else .error "IndexError"

/-- One optional field write of build_packet: performed only when both
the override value and the schema offset are present, at the offset
plus the data-area base 3. -/
def optWrite (f : List Nat) (ov op : Option Nat) : Except String (List Nat) :=
  match ov, op with
  | some v, some p => setB f (3 + p) v
  | _, _ => pure f

/-- Field-write phase of build_packet: fixed writes of subnet and
device at data-area offsets 6 and 7, the address-position loop, and
the optional temperature, mode and fan-speed writes. -/
def writePhase (base : List Nat) (subnet device : Nat) (s : Schema)
    (temperature hvac_mode fan_speed : Option Nat) : Except String (List Nat) := do
  let f1 ← setB base 9 subnet
  let f2 ← setB f1 10 device
  let f3 ← writeAddrPositions f2 s.address_positions subnet device
  let f4 ← optWrite f3 temperature s.temperature_position
  let f5 ← optWrite f4 hvac_mode s.mode_position
  optWrite f5 fan_speed s.fan_speed_position

/-- Final phase of build_packet: rewrite the length byte as one plus
the data-area length, then recompute and write the trailing CRC. -/
def finalize (f6 : List Nat) : Except String (List Nat) := do
  let f7 ← setB f6 2 ((f6.length - 3) + 1)
  let lad ← append_hdl_crc (f7.drop 2)
  pure (f7.take 2 ++ lad)

/-- Everything build_packet does after base selection. -/
def assemble (base : List Nat) (subnet device : Nat) (s : Schema)
    (temperature hvac_mode fan_speed : Option Nat) : Except String (List Nat) := do
  let f6 ← writePhase base subnet device s temperature hvac_mode fan_speed
  finalize f6

/-- build_packet: selects the base reference frame for the verb and
assembles the outbound frame. -/
def build_packet (verb : String) (subnet device : Nat) (s : Schema)
    (temperature hvac_mode fan_speed : Option Nat) : Except String (List Nat) := do
  let base ← chooseBase verb s temperature hvac_mode
  assemble base subnet device s temperature hvac_mode fan_speed

/-! ## Status decoder (hdl_ac_core.py, parse_status_packet) -/

/-- Decoded status record, the dictionary returned by
parse_status_packet and handed to the per-device callbacks. -/
structure Status where
  subnet : Nat
  device_id : Nat
  is_on : Option Bool
  temperature : Option Nat
  current_temperature : Option Nat
  hvac_mode : Option Nat
  fan_speed : Option Nat
deriving DecidableEq

/-- parse_status_packet: locates the marker, accepts only the three
known length-byte discriminants 0x18, 0x19 and 0x1A, checks the
declared length, then reads the fixed per-discriminant positions.
Total: every failure path returns none. -/
def parse_status_packet (packet : List Nat) (_s : Schema) : Option Status :=
  match findAA packet with
  | none => none
  | some i =>
    let frame := packet.drop i
    if frame.length < 10 then none
    else if ¬ (frame.getD 0 0 = 170 ∧ frame.getD 1 0 = 170) then none
    else
      let length := frame.getD 2 0
      if ¬ (length = 24 ∨ length = 25 ∨ length = 26) then none
      else if frame.length - 3 ≠ length - 1 then none
      else
        let data_area := dataArea frame
        if data_area.length < 18 then none
        else
          let temp_byte : Option Nat :=
            if length = 25 then
              if 10 < data_area.length then some (data_area.getD 10 0) else none
            else
              if 11 < data_area.length then some (data_area.getD 11 0) else none
          let temperature : Option Nat :=
            match temp_byte with
            | some v => if 16 ≤ v ∧ v ≤ 35 then some v else none
            | none => none
          let current_temp_byte : Option Nat :=
            if 10 < data_area.length then some (data_area.getD 10 0) else none
          let current_temperature : Option Nat :=
            match current_temp_byte with
            | some v => if 10 ≤ v ∧ v ≤ 50 then some v else none
            | none => none
          let is_on : Bool :=
            if length = 25 then data_area.getD 9 0 = 1
            else data_area.getD 15 0 ≠ 32
          let mode_byte := data_area.getD 17 0
          let hvac_mode : Option Nat :=
            if mode_byte = 0 then some 0
            else if mode_byte = 2 then some 2
            else if mode_byte = 4 then some 4
            else none
          let fan_speed : Option Nat :=
            if (length = 25 ∨ length = 26) ∧ 16 < data_area.length then
              let fb := data_area.getD 16 0
              if fb = 0 ∨ fb = 1 ∨ fb = 2 ∨ fb = 3 then some fb else none
            else none
          some {
            subnet := data_area.getD 0 0
            device_id := data_area.getD 1 0
            is_on := some is_on
            temperature := temperature
            current_temperature := current_temperature
            hvac_mode := hvac_mode
            fan_speed := fan_speed }

/-! ## Device reconciler (climate.py, HdlAcClimate) -/

/-- Home Assistant HVAC modes the entity can hold. -/
inductive HAMode
  | off
  | cool
  | fanOnly
  | dry
deriving DecidableEq

/-- Home Assistant fan modes the entity can hold. -/
inductive HAFan
  | auto
  | high
  | medium
  | low
deriving DecidableEq

/-- Pending-command record stored when a command is issued. -/
structure PendingCmd where
  is_on : Bool
  temperature : Nat
  hvac_mode : Option Nat
  fan_speed : Option Nat
deriving DecidableEq

/-- Mutable entity state of one HdlAcClimate device. -/
structure EntityState where
  hvac_mode : HAMode
  target_temperature : Nat
  fan_mode : HAFan
  last_command_sent : Rat
  last_status : Option Status
  pending_command : Option PendingCmd
deriving DecidableEq

/-- Mapping from an HDL mode byte to the Home Assistant mode applied
by _apply_status_update: 0x00 is COOL, 0x02 is FAN_ONLY, 0x04 (DRY)
is remapped to COOL, anything else is unknown. -/
def decodeHdlMode (m : Nat) : Option HAMode :=
  if m = 0 then some .cool
  else if m = 2 then some .fanOnly
  else if m = 4 then some .cool
  else none

/-- Mapping from an HDL fan-speed byte to the Home Assistant fan mode,
defaulting to AUTO. -/
def decodeHdlFan (f : Nat) : HAFan :=
  if f = 0 then .auto
  else if f = 1 then .high
  else if f = 2 then .medium
  else if f = 3 then .low
  else .auto

/-- Mode block of _apply_status_update: updates the visible HVAC mode
from the record, turning the entity off when the record reports off,
and leaving it untouched when the mode is unknown and the record does
not report off.  The Bool reports whether the field changed. -/
def modeStep (S : EntityState) (st : Status) : EntityState × Bool :=
  match st.hvac_mode with
  | some m =>
    match decodeHdlMode m with
    | some nm =>
      match st.is_on with
      | some true =>
        if S.hvac_mode ≠ nm then ({ S with hvac_mode := nm }, true) else (S, false)
      | some false =>
        if S.hvac_mode ≠ .off then ({ S with hvac_mode := .off }, true) else (S, false)
      | none =>
        if S.hvac_mode ≠ nm then ({ S with hvac_mode := nm }, true) else (S, false)
    | none => (S, false)
  | none =>
    match st.is_on with
    | some false =>
      if S.hvac_mode ≠ .off then ({ S with hvac_mode := .off }, true) else (S, false)
    | _ => (S, false)

/-- Temperature block of _apply_status_update: the target temperature
is written only when the record carries one and the record does not
report power off. -/
def tempStep (S : EntityState) (st : Status) : EntityState × Bool :=
  match st.temperature with
  | some t =>
    if st.is_on ≠ some false then
      if S.target_temperature ≠ t then
        ({ S with target_temperature := t }, true)
      else (S, false)
    else (S, false)
  | none => (S, false)

/-- Fan block of _apply_status_update. -/
def fanStep (S : EntityState) (st : Status) : EntityState × Bool :=
  match st.fan_speed with
  | some f =>
    if S.fan_mode ≠ decodeHdlFan f then
      ({ S with fan_mode := decodeHdlFan f }, true)
    else (S, false)
  | none => (S, false)

/-- _apply_status_update: the three field blocks in source order; the
Bool is the updated flag deciding whether a state-change notification
is scheduled. -/
def apply_status_update (S : EntityState) (st : Status) : EntityState × Bool :=
  let r1 := modeStep S st
  let r2 := tempStep r1.1 st
  let r3 := fanStep r2.1 st
  (r3.1, r1.2 || r2.2 || r3.2)

/-- _handle_status_update: drops the whole record inside the 2.5 s
optimistic-update window, drops exact duplicates of the last accepted
record, records but does not apply DRY-mode broadcasts, and otherwise
stores the record, clears the pending command and applies it.  The
Bool reports whether a change notification was fired. -/
def handle_status_update (S : EntityState) (st : Status) (now : Rat) :
    EntityState × Bool :=
  if now - S.last_command_sent < (5 : Rat) / 2 then (S, false)
  else if S.last_status = some st then (S, false)
  else if st.hvac_mode = some 4 then ({ S with last_status := some st }, false)
  else
    apply_status_update
      { S with last_status := some st, pending_command := none } st

/-! ## Concrete template fixtures used by witnesses and counterexamples -/

/-- Hex template for the off command of device 1.13. -/
def hexOff : String := "aaaa1501020304050009090000181800000020000014fd"

/-- Hex template for the on command of device 1.13. -/
def hexOn : String := "aaaa150102030407000909000018180000000100008ca7"

/-- Hex template for the on command of device 1.14. -/
def hexOn14 : String := "aaaa15010203040708010e0000181800000001000020b2"

/-- Hex template for cool mode at 23 degrees. -/
def hexCool : String := "aaaa15010217000708010d00001818000000010000b466"

/-- Hex template for fan mode at 24 degrees. -/
def hexFan : String := "aaaa15010218020708010d000018180000000100009777"

/-- Template set with the three required keys and a malformed
status-request template. -/
def tmplBasic : Templates :=
  { off := some hexOff, on_key := some hexOn, on14 := some hexOn14,
    cool_23c := none, fan_24c := none, status_request := some "zz" }

/-- Template set with the cool/fan exemplar pair as well. -/
def tmplFull : Templates :=
  { off := some hexOff, on_key := some hexOn, on14 := some hexOn14,
    cool_23c := some hexCool, fan_24c := some hexFan, status_request := none }

/-- Schema discovered from tmplBasic. -/
def schemaBasic : Schema :=
  { address_positions := [5, 6, 7], opcode_positions := [4, 15],
    temperature_position := none, mode_position := none,
    fan_speed_position := some 15,
    base_off_frame :=
      [170, 170, 21, 1, 2, 3, 4, 5, 0, 9, 9, 0, 0, 24, 24, 0, 0, 0, 32, 0, 0, 20, 253],
    base_on_frame :=
      [170, 170, 21, 1, 2, 3, 4, 7, 0, 9, 9, 0, 0, 24, 24, 0, 0, 0, 1, 0, 0, 140, 167],
    base_cool_frame := none, base_status_request_frame := none, preamble := [] }

/-- Schema discovered from tmplFull. -/
def schemaFull : Schema :=
  { address_positions := [5, 6, 7], opcode_positions := [4, 15],
    temperature_position := some 2, mode_position := some 3,
    fan_speed_position := some 15,
    base_off_frame :=
      [170, 170, 21, 1, 2, 3, 4, 5, 0, 9, 9, 0, 0, 24, 24, 0, 0, 0, 32, 0, 0, 20, 253],
    base_on_frame :=
      [170, 170, 21, 1, 2, 3, 4, 7, 0, 9, 9, 0, 0, 24, 24, 0, 0, 0, 1, 0, 0, 140, 167],
    base_cool_frame :=
      some [170, 170, 21, 1, 2, 23, 0, 7, 8, 1, 13, 0, 0, 24, 24, 0, 0, 0, 1, 0, 0, 180, 102],
    base_status_request_frame := none, preamble := [] }

/-! ## Reconciler lemmas -/

theorem modeStep_target (S : EntityState) (st : Status) :
    (modeStep S st).1.target_temperature = S.target_temperature := by
  unfold modeStep
  repeat' split
  all_goals rfl

theorem modeStep_fan (S : EntityState) (st : Status) :
    (modeStep S st).1.fan_mode = S.fan_mode := by
  unfold modeStep
  repeat' split
  all_goals rfl

theorem tempStep_mode (S : EntityState) (st : Status) :
    (tempStep S st).1.hvac_mode = S.hvac_mode := by
  unfold tempStep
  repeat' split
  all_goals rfl

theorem tempStep_fan (S : EntityState) (st : Status) :
    (tempStep S st).1.fan_mode = S.fan_mode := by
  unfold tempStep
  repeat' split
  all_goals rfl

theorem fanStep_mode (S : EntityState) (st : Status) :
    (fanStep S st).1.hvac_mode = S.hvac_mode := by
  unfold fanStep
  repeat' split
  all_goals rfl

theorem fanStep_target (S : EntityState) (st : Status) :
    (fanStep S st).1.target_temperature = S.target_temperature := by
  unfold fanStep
  repeat' split
  all_goals rfl

theorem tempStep_off (S : EntityState) (st : Status) (h : st.is_on = some false) :
    tempStep S st = (S, false) := by
  unfold tempStep
  cases ht : st.temperature <;> simp [h, ht]

theorem tempStep_value (S : EntityState) (st : Status) (t : Nat)
    (ht : st.temperature = some t) (hio : st.is_on ≠ some false) :
    (tempStep S st).1.target_temperature = t := by
  unfold tempStep
  simp only [ht]
  by_cases hc : S.target_temperature = t <;> simp [hio, hc]

theorem modeStep_on_true (S : EntityState) (st : Status) (m : Nat) (nm : HAMode)
    (hio : st.is_on = some true) (hm : st.hvac_mode = some m)
    (hd : decodeHdlMode m = some nm) :
    (modeStep S st).1.hvac_mode = nm := by
  unfold modeStep
  simp only [hm, hd, hio]
  by_cases hc : S.hvac_mode = nm <;> simp [hc]

theorem modeStep_off (S : EntityState) (st : Status)
    (hio : st.is_on = some false)
    (hm : st.hvac_mode = none ∨ ∃ m, st.hvac_mode = some m ∧ (decodeHdlMode m).isSome) :
    (modeStep S st).1.hvac_mode = .off := by
  unfold modeStep
  rcases hm with hm | ⟨m, hm, hd⟩
  · simp only [hm, hio]
    by_cases hc : S.hvac_mode = HAMode.off <;> simp [hc]
  · rcases ho : decodeHdlMode m with _ | nm
    · rw [ho] at hd
      simp at hd
    · simp only [hm, ho, hio]
      by_cases hc : S.hvac_mode = HAMode.off <;> simp [hc]

theorem fanStep_value (S : EntityState) (st : Status) (f : Nat)
    (hf : st.fan_speed = some f) :
    (fanStep S st).1.fan_mode = decodeHdlFan f := by
  unfold fanStep
  simp only [hf]
  by_cases hc : S.fan_mode = decodeHdlFan f <;> simp [hc]

theorem modeStep_flag (S : EntityState) (st : Status) :
    (modeStep S st).2 = true ↔ (modeStep S st).1.hvac_mode ≠ S.hvac_mode := by
  unfold modeStep
  repeat' split
  all_goals simp_all [eq_comm]

theorem tempStep_flag (S : EntityState) (st : Status) :
    (tempStep S st).2 = true ↔ (tempStep S st).1.target_temperature ≠ S.target_temperature := by
  unfold tempStep
  repeat' split
  all_goals simp_all [eq_comm]

theorem fanStep_flag (S : EntityState) (st : Status) :
    (fanStep S st).2 = true ↔ (fanStep S st).1.fan_mode ≠ S.fan_mode := by
  unfold fanStep
  repeat' split
  all_goals simp_all [eq_comm]

theorem apply_def (S : EntityState) (st : Status) :
    apply_status_update S st =
      ((fanStep (tempStep (modeStep S st).1 st).1 st).1,
        (modeStep S st).2 || (tempStep (modeStep S st).1 st).2 ||
          (fanStep (tempStep (modeStep S st).1 st).1 st).2) := rfl

theorem apply_mode_eq (S : EntityState) (st : Status) :
    (apply_status_update S st).1.hvac_mode = (modeStep S st).1.hvac_mode := by
  rw [apply_def]
  dsimp only
  rw [fanStep_mode, tempStep_mode]

theorem apply_target_eq (S : EntityState) (st : Status) :
    (apply_status_update S st).1.target_temperature =
      (tempStep (modeStep S st).1 st).1.target_temperature := by
  rw [apply_def]
  dsimp only
  rw [fanStep_target]

theorem apply_fan_eq (S : EntityState) (st : Status) :
    (apply_status_update S st).1.fan_mode =
      (fanStep (tempStep (modeStep S st).1 st).1 st).1.fan_mode := by
  rw [apply_def]

theorem apply_flag (S : EntityState) (st : Status) :
    (apply_status_update S st).2 = true ↔
      ¬ ((apply_status_update S st).1.hvac_mode = S.hvac_mode ∧
        (apply_status_update S st).1.target_temperature = S.target_temperature ∧
        (apply_status_update S st).1.fan_mode = S.fan_mode) := by
  have h1 := modeStep_flag S st
  have h2 := tempStep_flag (modeStep S st).1 st
  have h3 := fanStep_flag (tempStep (modeStep S st).1 st).1 st
  rw [modeStep_target] at h2
  rw [tempStep_fan, modeStep_fan] at h3
  rw [apply_def]
  dsimp only
  rw [fanStep_mode, tempStep_mode, fanStep_target]
  simp only [Bool.or_eq_true]
  rw [h1, h2, h3]
  tauto

/-! ## Concrete reconciler fixtures -/

/-- Entity state just after a command targeting 22 degrees. -/
def stC1 : EntityState :=
  { hvac_mode := .cool, target_temperature := 22, fan_mode := .auto,
    last_command_sent := 100, last_status := none,
    pending_command :=
      some { is_on := true, temperature := 22, hvac_mode := some 0, fan_speed := some 0 } }

/-- Status record whose temperature matches neither the pre-command
value 24 nor the command target 22. -/
def recC1 : Status :=
  { subnet := 1, device_id := 13, is_on := some true, temperature := some 30,
    current_temperature := some 28, hvac_mode := some 0, fan_speed := some 0 }

/-- Idle entity state visibly cooling at 24 degrees. -/
def stC5 : EntityState :=
  { hvac_mode := .cool, target_temperature := 24, fan_mode := .auto,
    last_command_sent := 0, last_status := none, pending_command := none }

/-- DRY-mode status record reporting the device off at 30 degrees. -/
def recC5 : Status :=
  { subnet := 1, device_id := 13, is_on := some false, temperature := some 30,
    current_temperature := some 30, hvac_mode := some 4, fan_speed := some 3 }

/-- Idle entity state, visibly off. -/
def stC5w : EntityState :=
  { hvac_mode := .off, target_temperature := 24, fan_mode := .auto,
    last_command_sent := 0, last_status := none, pending_command := none }

/-- Ordinary cool-mode status record. -/
def recC5w : Status :=
  { subnet := 1, device_id := 13, is_on := some true, temperature := some 26,
    current_temperature := some 27, hvac_mode := some 0, fan_speed := some 2 }

/-- Entity state visibly off with a preserved setpoint of 24. -/
def stC9 : EntityState :=
  { hvac_mode := .off, target_temperature := 24, fan_mode := .auto,
    last_command_sent := 0, last_status := none, pending_command := none }

/-- Status record reporting on with an unrecognized mode byte
(decoded mode absent) and a temperature of 25. -/
def recC9 : Status :=
  { subnet := 1, device_id := 13, is_on := some true, temperature := some 25,
    current_temperature := some 26, hvac_mode := none, fan_speed := none }

/-! ## C1: in-window behaviour of the reconciler -/

/-- Counterexample to C1: one second after a command, a record whose
temperature field (30) equals neither the pre-command value (24) nor
the command target (22) is discarded whole; the claim says such a
field is accepted as new ground truth and overwrites visible
state. -/
theorem window_field_not_accepted_counterexample :
    ((101 : Rat) - stC1.last_command_sent < 5 / 2) ∧
    recC1.temperature = some 30 ∧
    stC1.target_temperature = 22 ∧
    handle_status_update stC1 recC1 101 = (stC1, false) := by
  have hw : (101 : Rat) - stC1.last_command_sent < 5 / 2 := by
    norm_num [stC1]
  refine ⟨hw, rfl, rfl, ?_⟩
  unfold handle_status_update
  rw [if_pos hw]

/-- C1 amended: while now minus the last command time is inside the
2.5-second suppression window, the handler discards the entire decoded
record unconditionally, with no per-field comparison: the state is
unchanged and no notification fires. -/
theorem window_discards_entire_record (S : EntityState) (st : Status) (now : Rat)
    (h : now - S.last_command_sent < 5 / 2) :
    handle_status_update S st now = (S, false) := by
  unfold handle_status_update
  rw [if_pos h]

/-- Witness for the amended C1 at a concrete in-window instant. -/
theorem window_discards_entire_record_witness :
    ((101 : Rat) - stC1.last_command_sent < 5 / 2) ∧
    handle_status_update stC1 recC1 101 = (stC1, false) :=
  ⟨by norm_num [stC1], window_discards_entire_record stC1 recC1 101 (by norm_num [stC1])⟩

/-! ## C5: post-window behaviour of the reconciler -/

/-- Counterexample to C5: ten seconds after the last command, a
DRY-mode record reporting the device off is recorded but not applied:
visible state keeps mode cool and no notification fires, although the
claim requires the record to overwrite visible state and fire a
notification. -/
theorem post_window_dry_record_ignored_counterexample :
    ¬ ((10 : Rat) - stC5.last_command_sent < 5 / 2) ∧
    recC5.is_on = some false ∧
    stC5.hvac_mode = HAMode.cool ∧
    handle_status_update stC5 recC5 10 = ({ stC5 with last_status := some recC5 }, false) ∧
    (handle_status_update stC5 recC5 10).1.hvac_mode = HAMode.cool ∧
    (handle_status_update stC5 recC5 10).2 = false := by
  have hw : ¬ ((10 : Rat) - stC5.last_command_sent < 5 / 2) := by
    norm_num [stC5]
  have hh : handle_status_update stC5 recC5 10 =
      ({ stC5 with last_status := some recC5 }, false) := by
    unfold handle_status_update
    rw [if_neg hw, if_neg (by decide), if_pos (show recC5.hvac_mode = some 4 from rfl)]
  exact ⟨hw, rfl, rfl, hh, by rw [hh]; decide, by rw [hh]⟩

/-- C5 amended: outside the suppression window, a record that is not
an exact duplicate of the last accepted record and whose mode byte is
not DRY is applied as ground truth: the reported temperature
overwrites the target unless the record reports off, an off record
turns the visible mode off and preserves the target, a reported
recognized mode is applied when the record reports on, a reported fan
speed is applied, and a notification fires exactly when a visible
field changed. -/
theorem post_window_record_applied (S : EntityState) (st : Status) (now : Rat)
    (h1 : ¬ (now - S.last_command_sent < 5 / 2))
    (h2 : S.last_status ≠ some st)
    (h3 : st.hvac_mode ≠ some 4) :
    (∀ t, st.temperature = some t → st.is_on ≠ some false →
      (handle_status_update S st now).1.target_temperature = t) ∧
    (st.is_on = some false →
      (handle_status_update S st now).1.target_temperature = S.target_temperature) ∧
    (st.is_on = some false →
      (st.hvac_mode = none ∨ ∃ m, st.hvac_mode = some m ∧ (decodeHdlMode m).isSome) →
      (handle_status_update S st now).1.hvac_mode = HAMode.off) ∧
    (∀ m nm, st.is_on = some true → st.hvac_mode = some m → decodeHdlMode m = some nm →
      (handle_status_update S st now).1.hvac_mode = nm) ∧
    (∀ f, st.fan_speed = some f →
      (handle_status_update S st now).1.fan_mode = decodeHdlFan f) ∧
    ((handle_status_update S st now).2 = true ↔
      ¬ ((handle_status_update S st now).1.hvac_mode = S.hvac_mode ∧
        (handle_status_update S st now).1.target_temperature = S.target_temperature ∧
        (handle_status_update S st now).1.fan_mode = S.fan_mode)) := by
  have hh : handle_status_update S st now =
      apply_status_update { S with last_status := some st, pending_command := none } st := by
    unfold handle_status_update
    rw [if_neg h1, if_neg h2, if_neg h3]
  refine ⟨?_, ?_, ?_, ?_, ?_, ?_⟩
  · intro t ht hio
    rw [hh, apply_target_eq, tempStep_value _ _ _ ht hio]
  · intro hio
    rw [hh, apply_target_eq, tempStep_off _ _ hio]
    dsimp only
    rw [modeStep_target]
  · intro hio hm
    rw [hh, apply_mode_eq]
    exact modeStep_off _ _ hio hm
  · intro m nm hio hm hd
    rw [hh, apply_mode_eq]
    exact modeStep_on_true _ _ _ _ hio hm hd
  · intro f hf
    rw [hh, apply_fan_eq]
    exact fanStep_value _ _ _ hf
  · rw [hh]
    exact apply_flag _ st

/-- Witness for the amended C5 at a concrete post-window record. -/
theorem post_window_record_applied_witness :
    ¬ ((10 : Rat) - stC5w.last_command_sent < 5 / 2) ∧
    (handle_status_update stC5w recC5w 10).1.target_temperature = 26 :=
  ⟨by norm_num [stC5w],
    (post_window_record_applied stC5w recC5w 10 (by norm_num [stC5w])
      (by decide) (by decide)).1 26 rfl (by decide)⟩

/-! ## C9: target temperature versus visible power state -/

/-- Counterexample to C9: with the visible state off, a record
reporting on with an unrecognized mode byte leaves the visible mode
off yet overwrites the target temperature from 24 to 25, so the
target changed while the visible power state was off before and after
processing. -/
theorem target_updated_while_visibly_off_counterexample :
    stC9.hvac_mode = HAMode.off ∧
    stC9.target_temperature = 24 ∧
    ¬ ((10 : Rat) - stC9.last_command_sent < 5 / 2) ∧
    (handle_status_update stC9 recC9 10).1.hvac_mode = HAMode.off ∧
    (handle_status_update stC9 recC9 10).1.target_temperature = 25 := by
  have hw : ¬ ((10 : Rat) - stC9.last_command_sent < 5 / 2) := by
    norm_num [stC9]
  have hh : handle_status_update stC9 recC9 10 =
      apply_status_update { stC9 with last_status := some recC9, pending_command := none }
        recC9 := by
    unfold handle_status_update
    rw [if_neg hw, if_neg (by decide), if_neg (by decide)]
  refine ⟨rfl, rfl, hw, ?_, ?_⟩ <;> rw [hh] <;> rfl

/-- C9 amended: the target temperature is preserved exactly when the
incoming record reports power off; the guard in the code is the
record power flag, not the visible power state. -/
theorem record_off_preserves_target (S : EntityState) (st : Status) (now : Rat)
    (h : st.is_on = some false) :
    (handle_status_update S st now).1.target_temperature = S.target_temperature := by
  unfold handle_status_update
  by_cases h1 : now - S.last_command_sent < 5 / 2
  · rw [if_pos h1]
  · rw [if_neg h1]
    by_cases h2 : S.last_status = some st
    · rw [if_pos h2]
    · rw [if_neg h2]
      by_cases h3 : st.hvac_mode = some 4
      · rw [if_pos h3]
      · rw [if_neg h3, apply_target_eq, tempStep_off _ _ h]
        dsimp only
        rw [modeStep_target]

/-- Witness for the amended C9 at a concrete off-reporting record. -/
theorem record_off_preserves_target_witness :
    recC5.is_on = some false ∧
    (handle_status_update stC5 recC5 10).1.target_temperature = stC5.target_temperature :=
  ⟨rfl, record_off_preserves_target stC5 recC5 10 rfl⟩

/-! ## C4 and C10: status decoder -/

theorem dataArea_getD (f : List Nat) (j : Nat) (h : j < f.length - 5) :
    (dataArea f).getD j 0 = f.getD (3 + j) 0 := by
  unfold dataArea
  rw [List.getD_eq_getElem?_getD, List.getD_eq_getElem?_getD,
    List.getElem?_take_of_lt h, List.getElem?_drop]

/-- C4: the decoder is a total function (it never raises), and it
returns none whenever the input has no two consecutive 0xAA marker
bytes, whenever the length-byte discriminant is not 0x18, 0x19 or
0x1A, and whenever the declared length does not match the actual
data-area size. -/
theorem decoder_none_conditions (packet : List Nat) (s : Schema) :
    (findAA packet = none → parse_status_packet packet s = none) ∧
    (∀ i, findAA packet = some i →
      ¬ ((packet.drop i).getD 2 0 = 24 ∨ (packet.drop i).getD 2 0 = 25 ∨
        (packet.drop i).getD 2 0 = 26) →
      parse_status_packet packet s = none) ∧
    (∀ i, findAA packet = some i →
      (packet.drop i).length - 3 ≠ (packet.drop i).getD 2 0 - 1 →
      parse_status_packet packet s = none) := by
  refine ⟨?_, ?_, ?_⟩
  · intro h
    unfold parse_status_packet
    rw [h]
  · intro i hi hd
    unfold parse_status_packet
    rw [hi]
    dsimp only
    by_cases h10 : (packet.drop i).length < 10
    · rw [if_pos h10]
    · rw [if_neg h10]
      by_cases hmk : ¬ ((packet.drop i).getD 0 0 = 170 ∧ (packet.drop i).getD 1 0 = 170)
      · rw [if_pos hmk]
      · rw [if_neg hmk, if_pos hd]
  · intro i hi hlen
    unfold parse_status_packet
    rw [hi]
    dsimp only
    by_cases h10 : (packet.drop i).length < 10
    · rw [if_pos h10]
    · rw [if_neg h10]
      by_cases hmk : ¬ ((packet.drop i).getD 0 0 = 170 ∧ (packet.drop i).getD 1 0 = 170)
      · rw [if_pos hmk]
      · rw [if_neg hmk]
        by_cases hd : ¬ ((packet.drop i).getD 2 0 = 24 ∨ (packet.drop i).getD 2 0 = 25 ∨
            (packet.drop i).getD 2 0 = 26)
        · rw [if_pos hd]
        · rw [if_neg hd, if_pos hlen]

/-- Witness for C4: a markerless packet, a packet with discriminant
0x20, and a 0x18 packet with a wrong declared length all decode to
none. -/
theorem decoder_none_conditions_witness :
    parse_status_packet [1, 2, 3] schemaBasic = none ∧
    parse_status_packet [170, 170, 32, 0, 0] schemaBasic = none ∧
    parse_status_packet [170, 170, 24, 1, 2, 3] schemaBasic = none :=
  ⟨(decoder_none_conditions [1, 2, 3] schemaBasic).1 (by decide),
    (decoder_none_conditions [170, 170, 32, 0, 0] schemaBasic).2.1 0 (by decide) (by decide),
    (decoder_none_conditions [170, 170, 24, 1, 2, 3] schemaBasic).2.2 0 (by decide) (by decide)⟩

/-- C10: in every accepted Type 0x19 packet both the target and the
sensed temperature are read from data-area byte 10 (frame byte 13), so
whenever that byte is in the setpoint range 16-35 (hence also in the
sensor range 10-50) the record reports current_temperature equal to
temperature. -/
theorem type19_current_equals_target (packet : List Nat) (s : Schema) (i : Nat)
    (r : Status) (hi : findAA packet = some i)
    (hd : (packet.drop i).getD 2 0 = 25)
    (hp : parse_status_packet packet s = some r)
    (h1 : 16 ≤ (packet.drop i).getD 13 0)
    (h2 : (packet.drop i).getD 13 0 ≤ 35) :
    r.temperature = some ((packet.drop i).getD 13 0) ∧
    r.current_temperature = r.temperature := by
  unfold parse_status_packet at hp
  rw [hi] at hp
  dsimp only at hp
  by_cases h10 : (packet.drop i).length < 10
  · rw [if_pos h10] at hp
    exact absurd hp (by simp)
  · rw [if_neg h10] at hp
    by_cases hmk : ¬ ((packet.drop i).getD 0 0 = 170 ∧ (packet.drop i).getD 1 0 = 170)
    · rw [if_pos hmk] at hp
      exact absurd hp (by simp)
    · rw [if_neg hmk] at hp
      rw [hd] at hp
      rw [if_neg (by norm_num : ¬ ¬ ((25 : Nat) = 24 ∨ (25 : Nat) = 25 ∨ (25 : Nat) = 26))] at hp
      by_cases hlen : (packet.drop i).length - 3 ≠ 25 - 1
      · rw [if_pos hlen] at hp
        exact absurd hp (by simp)
      · rw [if_neg hlen] at hp
        have hlen27 : (packet.drop i).length = 27 := by omega
        have hdal : (dataArea (packet.drop i)).length = 22 := by
          unfold dataArea
          rw [List.length_take, hlen27, List.length_drop, hlen27]
          omega
        rw [if_neg (by rw [hdal]; norm_num)] at hp
        rw [if_pos rfl] at hp
        rw [if_pos (by rw [hdal]; norm_num : 10 < (dataArea (packet.drop i)).length)] at hp
        have e13 : (dataArea (packet.drop i)).getD 10 0 = (packet.drop i).getD 13 0 := by
          rw [dataArea_getD _ _ (by omega)]
        rw [e13] at hp
        rw [if_pos (rfl : (25 : Nat) = 25)] at hp
        dsimp only at hp
        rw [if_pos (show 16 ≤ (packet.drop i).getD 13 0 ∧
          (packet.drop i).getD 13 0 ≤ 35 from ⟨h1, h2⟩)] at hp
        rw [if_pos (show 10 ≤ (packet.drop i).getD 13 0 ∧
          (packet.drop i).getD 13 0 ≤ 50 from ⟨by omega, by omega⟩)] at hp
        rw [Option.some_inj] at hp
        rw [← hp]
        exact ⟨rfl, rfl⟩

/-- Concrete Type 0x19 broadcast frame. -/
def pktC10 : List Nat :=
  [170, 170, 25, 1, 13, 0, 0, 0, 0, 0, 0, 0, 1, 24, 0, 0, 0, 0, 0, 2, 0, 0, 0, 0, 0, 7, 7]

/-- Record decoded from pktC10. -/
def recC10 : Status :=
  { subnet := 1, device_id := 13, is_on := some true, temperature := some 24,
    current_temperature := some 24, hvac_mode := some 0, fan_speed := some 2 }

/-- Witness for C10 at a concrete Type 0x19 broadcast. -/
theorem type19_current_equals_target_witness :
    parse_status_packet pktC10 schemaBasic = some recC10 ∧
    recC10.temperature = some ((pktC10.drop 0).getD 13 0) ∧
    recC10.current_temperature = recC10.temperature :=
  ⟨by decide,
    type19_current_equals_target pktC10 schemaBasic 0 recC10 (by decide) (by decide)
      (by decide) (by decide) (by decide)⟩

/-! ## C8: schema discovery and template validation -/

theorem loadTemplate_ok {hx name : String} {p : List Nat × List Nat}
    (h : loadTemplate hx name = .ok p) :
    split_packet hx = .ok p ∧ validate_frame p.2 name = .ok () := by
  unfold loadTemplate at h
  cases hsp : split_packet hx with
  | error e =>
    rw [hsp] at h
    simp [Bind.bind, Except.bind] at h
  | ok q =>
    rw [hsp] at h
    simp only [Bind.bind, Except.bind] at h
    cases hv : validate_frame q.2 name with
    | error e =>
      rw [hv] at h
      simp at h
    | ok u =>
      cases u
      rw [hv] at h
      simp only [Pure.pure, Except.pure, Except.ok.injEq] at h
      subst h
      exact ⟨rfl, hv⟩

theorem discoverTempMode_pair_ok {ch fh : String}
    {tmc : Option Nat × Option Nat × Option (List Nat)}
    (h : discoverTempMode (some ch) (some fh) = .ok tmc) :
    (∃ pc, loadTemplate ch "cool_23c" = .ok pc ∧ tmc.2.2 = some pc.2) ∧
    (∃ pf, loadTemplate fh "fan_24c" = .ok pf) := by
  unfold discoverTempMode at h
  dsimp only at h
  cases hc : loadTemplate ch "cool_23c" with
  | error e =>
    rw [hc] at h
    simp [Bind.bind, Except.bind] at h
  | ok pc =>
    rw [hc] at h
    simp only [Bind.bind, Except.bind] at h
    cases hf : loadTemplate fh "fan_24c" with
    | error e =>
      rw [hf] at h
      simp at h
    | ok pf =>
      rw [hf] at h
      simp only [Pure.pure, Except.pure, Except.ok.injEq] at h
      subst h
      exact ⟨⟨pc, rfl, rfl⟩, ⟨pf, rfl⟩⟩

theorem discover_ok_inv (t : Templates) (s : Schema)
    (h : discover_protocol t = .ok s) :
    (∃ oh po, t.off = some oh ∧ loadTemplate oh "off" = .ok po ∧
      s.base_off_frame = po.2 ∧ s.preamble = po.1) ∧
    (∃ oh pn, t.on_key = some oh ∧ loadTemplate oh "on" = .ok pn ∧
      s.base_on_frame = pn.2) ∧
    (∃ oh p14, t.on14 = some oh ∧ loadTemplate oh "on_1.14" = .ok p14) ∧
    (∃ tmc, discoverTempMode t.cool_23c t.fan_24c = .ok tmc ∧
      s.base_cool_frame = tmc.2.2) := by
  unfold discover_protocol at h
  cases hoff : t.off with
  | none => rw [hoff] at h; simp [Bind.bind, Except.bind, Pure.pure, Except.pure] at h
  | some offHex =>
  rw [hoff] at h
  cases hon : t.on_key with
  | none => rw [hon] at h; simp [Bind.bind, Except.bind, Pure.pure, Except.pure] at h
  | some onHex =>
  rw [hon] at h
  cases hon14 : t.on14 with
  | none => rw [hon14] at h; simp [Bind.bind, Except.bind, Pure.pure, Except.pure] at h
  | some on14Hex =>
  rw [hon14] at h
  simp only [Bind.bind, Except.bind, Pure.pure, Except.pure] at h
  cases hpo : loadTemplate offHex "off" with
  | error e => rw [hpo] at h; simp at h
  | ok po =>
  rw [hpo] at h
  cases hpn : loadTemplate onHex "on" with
  | error e => rw [hpn] at h; simp at h
  | ok pn =>
  rw [hpn] at h
  cases hpn14 : loadTemplate on14Hex "on_1.14" with
  | error e => rw [hpn14] at h; simp at h
  | ok pn14 =>
  rw [hpn14] at h
  simp only [] at h
  by_cases hop : diffPositions (dataArea po.2) (dataArea pn.2) = []
  · rw [if_pos hop] at h
    simp at h
  · rw [if_neg hop] at h
    by_cases had : diffPositions (dataArea pn.2) (dataArea pn14.2) = []
    · rw [if_pos had] at h
      simp at h
    · rw [if_neg had] at h
      cases htmc : discoverTempMode t.cool_23c t.fan_24c with
      | error e => rw [htmc] at h; simp at h
      | ok tmc =>
      rw [htmc] at h
      simp only [Except.ok.injEq] at h
      subst h
      exact ⟨⟨offHex, po, rfl, hpo, rfl, rfl⟩, ⟨onHex, pn, rfl, hpn, rfl⟩,
        ⟨on14Hex, pn14, rfl, hpn14⟩, ⟨tmc, rfl, rfl⟩⟩

/-- Counterexample to C8: with valid off, on and on_1.14 templates and
a status-request template that fails packet splitting, discovery does
not abort: it returns a schema, merely leaving the status-request
frame absent. -/
theorem bad_status_request_not_fatal_counterexample :
    split_packet "zz" = .error "0xAA 0xAA marker not found in packet" ∧
    tmplBasic.status_request = some "zz" ∧
    discover_protocol tmplBasic = .ok schemaBasic ∧
    schemaBasic.base_status_request_frame = none :=
  ⟨by decide, rfl, by decide, rfl⟩

/-- C8 amended: discovery never returns a schema unless the off, on
and on_1.14 templates and, when both are supplied, the cool/fan
exemplar templates all pass packet splitting and frame validation; a
failing status-request template, however, is swallowed rather than
fatal. -/
theorem discovery_validates_required_templates (t : Templates) (s : Schema)
    (h : discover_protocol t = .ok s) :
    (∃ oh p, t.off = some oh ∧ split_packet oh = .ok p ∧
      validate_frame p.2 "off" = .ok ()) ∧
    (∃ oh p, t.on_key = some oh ∧ split_packet oh = .ok p ∧
      validate_frame p.2 "on" = .ok ()) ∧
    (∃ oh p, t.on14 = some oh ∧ split_packet oh = .ok p ∧
      validate_frame p.2 "on_1.14" = .ok ()) ∧
    (∀ ch fh, t.cool_23c = some ch → t.fan_24c = some fh →
      (∃ p, split_packet ch = .ok p ∧ validate_frame p.2 "cool_23c" = .ok ()) ∧
      (∃ p, split_packet fh = .ok p ∧ validate_frame p.2 "fan_24c" = .ok ())) := by
  obtain ⟨⟨oh1, po, ho1, hl1, _, _⟩, ⟨oh2, pn, ho2, hl2, _⟩, ⟨oh3, p14, ho3, hl3⟩,
    ⟨tmc, htmc, _⟩⟩ := discover_ok_inv t s h
  obtain ⟨hs1, hv1⟩ := loadTemplate_ok hl1
  obtain ⟨hs2, hv2⟩ := loadTemplate_ok hl2
  obtain ⟨hs3, hv3⟩ := loadTemplate_ok hl3
  refine ⟨⟨oh1, po, ho1, hs1, hv1⟩, ⟨oh2, pn, ho2, hs2, hv2⟩,
    ⟨oh3, p14, ho3, hs3, hv3⟩, ?_⟩
  intro ch fh hch hfh
  rw [hch, hfh] at htmc
  obtain ⟨⟨pc, hpc, _⟩, ⟨pf, hpf⟩⟩ := discoverTempMode_pair_ok htmc
  obtain ⟨hsc, hvc⟩ := loadTemplate_ok hpc
  obtain ⟨hsf, hvf⟩ := loadTemplate_ok hpf
  exact ⟨⟨pc, hsc, hvc⟩, ⟨pf, hsf, hvf⟩⟩

/-- Witness for the amended C8, at the concrete full template set. -/
theorem discovery_validates_required_templates_witness :
    discover_protocol tmplFull = .ok schemaFull ∧
    (∃ oh p, tmplFull.off = some oh ∧ split_packet oh = .ok p ∧
      validate_frame p.2 "off" = .ok ()) :=
  ⟨by decide,
    (discovery_validates_required_templates tmplFull schemaFull (by decide)).1⟩

/-! ## Builder lemmas (C3, C6, C7) -/

/-- Frames that passed validation: long enough and marker-led. -/
def goodFrame (f : List Nat) : Prop :=
  5 ≤ f.length ∧ f.getD 0 0 = 170 ∧ f.getD 1 0 = 170

theorem setB_ok {l : List Nat} {i v : Nat} {r : List Nat}
    (h : setB l i v = .ok r) : r = l.set i v ∧ i < l.length ∧ v < 256 := by
  unfold setB at h
  split at h
  · simp only [Except.ok.injEq] at h
    subst h
    rename_i hc
    exact ⟨rfl, hc.1, hc.2⟩
  · exact absurd h (by simp)

theorem setB_len {l : List Nat} {i v : Nat} {r : List Nat}
    (h : setB l i v = .ok r) : r.length = l.length := by
  obtain ⟨rfl, -, -⟩ := setB_ok h
  exact List.length_set l i v

theorem setB_take2 {l : List Nat} {i v : Nat} {r : List Nat}
    (h : setB l i v = .ok r) (hi : 2 ≤ i) : r.take 2 = l.take 2 := by
  obtain ⟨rfl, -, -⟩ := setB_ok h
  rw [List.set_take, List.set_eq_of_length_le]
  exact le_trans (by simp [List.length_take]) hi

theorem setB_getD_ne {l : List Nat} {i v : Nat} {r : List Nat} {j d : Nat}
    (h : setB l i v = .ok r) (hj : j ≠ i) : r.getD j d = l.getD j d := by
  obtain ⟨rfl, -, -⟩ := setB_ok h
  rw [List.getD_eq_getElem?_getD, List.getD_eq_getElem?_getD,
    List.getElem?_set_ne (fun he => hj he.symm)]

theorem setB_getD_self {l : List Nat} {i v : Nat} {r : List Nat}
    (h : setB l i v = .ok r) : r.getD i 0 = v := by
  obtain ⟨rfl, hlen, -⟩ := setB_ok h
  rw [List.getD_eq_getElem?_getD, List.getElem?_set_self hlen]
  rfl

theorem validate_ok_good {f : List Nat} {n : String}
    (h : validate_frame f n = .ok ()) : goodFrame f := by
  unfold validate_frame at h
  dsimp only at h
  split_ifs at h with h1 h2 h3 h4 h5
  rw [List.length_drop] at h4
  exact ⟨by omega, h2.1, h2.2⟩

theorem goodFrame_take2 {f : List Nat} (h : goodFrame f) :
    f.take 2 = [170, 170] := by
  obtain ⟨h5, h0, h1⟩ := h
  match f, h5 with
  | a :: b :: t, _ =>
    simp only [List.getD_cons_zero] at h0
    simp only [List.getD_cons_succ, List.getD_cons_zero] at h1
    subst h0
    subst h1
    rfl

theorem optWrite_none {f : List Nat} {op : Option Nat} :
    optWrite f none op = .ok f := by
  cases op <;> rfl

theorem optWrite_inv {f : List Nat} {ov op : Option Nat} {r : List Nat}
    (h : optWrite f ov op = .ok r) :
    r.length = f.length ∧ r.take 2 = f.take 2 := by
  unfold optWrite at h
  cases ov with
  | none =>
    cases op <;> simp only [Pure.pure, Except.pure, Except.ok.injEq] at h <;>
      subst h <;> exact ⟨rfl, rfl⟩
  | some v =>
    cases op with
    | none =>
      simp only [Pure.pure, Except.pure, Except.ok.injEq] at h
      subst h
      exact ⟨rfl, rfl⟩
    | some p =>
      exact ⟨setB_len h, setB_take2 h (by omega)⟩

theorem writeAddr_inv {ps : List Nat} :
    ∀ {f r : List Nat} {sub dev : Nat},
      writeAddrPositions f ps sub dev = .ok r →
      r.length = f.length ∧ r.take 2 = f.take 2 ∧
      (∀ j d, j ≠ 9 → j ≠ 10 → r.getD j d = f.getD j d) ∧
      (f.getD 9 0 = sub → f.getD 10 0 = dev →
        r.getD 9 0 = sub ∧ r.getD 10 0 = dev) := by
  induction ps with
  | nil =>
    intro f r sub dev h
    unfold writeAddrPositions at h
    simp only [List.foldlM_nil, Pure.pure, Except.pure, Except.ok.injEq] at h
    subst h
    exact ⟨rfl, rfl, fun _ _ _ _ => rfl, fun h9 h10 => ⟨h9, h10⟩⟩
  | cons pos rest ih =>
    intro f r sub dev h
    unfold writeAddrPositions at h
    rw [List.foldlM_cons] at h
    by_cases h6 : pos = 6
    · subst h6
      simp only [if_pos rfl] at h
      cases hs : setB f 9 sub with
      | error e =>
        rw [hs] at h
        simp [Bind.bind, Except.bind] at h
      | ok f2 =>
        rw [hs] at h
        simp only [Bind.bind, Except.bind] at h
        obtain ⟨hl, ht, hne, hkeep⟩ := ih h
        refine ⟨hl.trans (setB_len hs), ht.trans (setB_take2 hs (by omega)), ?_, ?_⟩
        · intro j d hj9 hj10
          rw [hne j d hj9 hj10, setB_getD_ne hs hj9]
        · intro h9 h10
          exact hkeep (setB_getD_self hs)
            (by rw [setB_getD_ne hs (by omega)]; exact h10)
    · by_cases h7 : pos = 7
      · subst h7
        simp only [if_neg (by omega : ¬ (7 : Nat) = 6), if_pos rfl] at h
        cases hs : setB f 10 dev with
        | error e =>
          rw [hs] at h
          simp [Bind.bind, Except.bind] at h
        | ok f2 =>
          rw [hs] at h
          simp only [Bind.bind, Except.bind] at h
          obtain ⟨hl, ht, hne, hkeep⟩ := ih h
          refine ⟨hl.trans (setB_len hs), ht.trans (setB_take2 hs (by omega)), ?_, ?_⟩
          · intro j d hj9 hj10
            rw [hne j d hj9 hj10, setB_getD_ne hs hj10]
          · intro h9 h10
            exact hkeep (by rw [setB_getD_ne hs (by omega)]; exact h9)
              (setB_getD_self hs)
      · simp only [if_neg h6, if_neg h7] at h
        simp only [Bind.bind, Except.bind, Pure.pure, Except.pure] at h
        exact ih h

theorem writePhase_inv {base : List Nat} {subnet device : Nat} {s : Schema}
    {tv mv fv : Option Nat} {f6 : List Nat}
    (h : writePhase base subnet device s tv mv fv = .ok f6) :
    f6.length = base.length ∧ f6.take 2 = base.take 2 := by
  unfold writePhase at h
  cases h1 : setB base 9 subnet with
  | error e => rw [h1] at h; simp [Bind.bind, Except.bind] at h
  | ok f1 =>
  rw [h1] at h
  simp only [Bind.bind, Except.bind] at h
  cases h2 : setB f1 10 device with
  | error e => rw [h2] at h; simp at h
  | ok f2 =>
  rw [h2] at h
  dsimp only at h
  cases h3 : writeAddrPositions f2 s.address_positions subnet device with
  | error e => rw [h3] at h; simp at h
  | ok f3 =>
  rw [h3] at h
  dsimp only at h
  cases h4 : optWrite f3 tv s.temperature_position with
  | error e => rw [h4] at h; simp at h
  | ok f4 =>
  rw [h4] at h
  dsimp only at h
  cases h5 : optWrite f4 mv s.mode_position with
  | error e => rw [h5] at h; simp at h
  | ok f5 =>
  rw [h5] at h
  dsimp only at h
  obtain ⟨l1, t1, -, -⟩ := writeAddr_inv h3
  obtain ⟨l2, t2⟩ := optWrite_inv h4
  obtain ⟨l3, t3⟩ := optWrite_inv h5
  obtain ⟨l4, t4⟩ := optWrite_inv h
  constructor
  · rw [l4, l3, l2, l1, setB_len h2, setB_len h1]
  · rw [t4, t3, t2, t1, setB_take2 h2 (by omega), setB_take2 h1 (by omega)]

theorem append_hdl_crc_ok {q lad : List Nat} (h : append_hdl_crc q = .ok lad) :
    2 ≤ q.length ∧
    lad = q.take (q.length - 2) ++
      [crc_hi (compute_hdl_crc q), crc_lo (compute_hdl_crc q)] := by
  unfold append_hdl_crc at h
  split at h
  · simp only [Except.ok.injEq] at h
    rename_i hc
    exact ⟨hc, h.symm⟩
  · exact absurd h (by simp)

theorem finalize_valid {f F : List Nat} (h5 : 5 ≤ f.length)
    (ht : f.take 2 = [170, 170]) (h : finalize f = .ok F) :
    validate_frame F "built" = .ok () ∧
    F.length = f.length ∧
    F.getD 2 0 = F.length - 2 ∧
    F.getD (F.length - 2) 0 = crc_hi (compute_hdl_crc (F.drop 2)) ∧
    F.getD (F.length - 1) 0 = crc_lo (compute_hdl_crc (F.drop 2)) := by
  unfold finalize at h
  cases h7 : setB f 2 ((f.length - 3) + 1) with
  | error e => rw [h7] at h; simp [Bind.bind, Except.bind] at h
  | ok f7 =>
  rw [h7] at h
  simp only [Bind.bind, Except.bind] at h
  cases hla : append_hdl_crc (f7.drop 2) with
  | error e => rw [hla] at h; simp at h
  | ok lad =>
  rw [hla] at h
  dsimp only at h
  simp only [Pure.pure, Except.pure, Except.ok.injEq] at h
  subst h
  have hl7 : f7.length = f.length := setB_len h7
  have ht7 : f7.take 2 = [170, 170] := by rw [setB_take2 h7 (le_refl 2), ht]
  have htl : (f7.take 2).length = 2 := by rw [List.length_take]; omega
  have hg2 : f7.getD 2 0 = (f.length - 3) + 1 := setB_getD_self h7
  obtain ⟨hq2, hladeq⟩ := append_hdl_crc_ok hla
  have hql : (f7.drop 2).length = f.length - 2 := by rw [List.length_drop, hl7]
  have hqt_len : ((f7.drop 2).take ((f7.drop 2).length - 2)).length =
      (f7.drop 2).length - 2 := by
    rw [List.length_take]
    omega
  have hll : lad.length = (f7.drop 2).length := by
    rw [hladeq, List.length_append, hqt_len]
    simp only [List.length_cons, List.length_nil]
    omega
  have hFlen : (f7.take 2 ++ lad).length = f.length := by
    rw [List.length_append, htl, hll, hql]
    omega
  have hF0 : (f7.take 2 ++ lad).getD 0 0 = 170 := by
    rw [List.getD_append _ _ _ _ (by omega), ht7]
    rfl
  have hF1 : (f7.take 2 ++ lad).getD 1 0 = 170 := by
    rw [List.getD_append _ _ _ _ (by omega), ht7]
    rfl
  have hF2 : (f7.take 2 ++ lad).getD 2 0 = lad.getD 0 0 := by
    rw [List.getD_append_right _ _ _ _ (by omega), htl]
  have hlad0 : lad.getD 0 0 = (f.length - 3) + 1 := by
    rw [hladeq, List.getD_append _ _ _ _ (by rw [hqt_len]; omega)]
    rw [List.getD_eq_getElem?_getD, List.getElem?_take_of_lt (by omega),
      List.getElem?_drop, ← List.getD_eq_getElem?_getD]
    rw [show (2 : Nat) + 0 = 2 from rfl, hg2]
  have hstored_hi : lad.getD (lad.length - 2) 0 =
      crc_hi (compute_hdl_crc (f7.drop 2)) := by
    have hidx : lad.length - 2 = ((f7.drop 2).take ((f7.drop 2).length - 2)).length := by
      rw [hqt_len, hll]
    rw [hidx, hladeq, List.getD_append_right _ _ _ _ (le_refl _)]
    simp
  have hstored_lo : lad.getD (lad.length - 1) 0 =
      crc_lo (compute_hdl_crc (f7.drop 2)) := by
    have hidx : lad.length - 1 = ((f7.drop 2).take ((f7.drop 2).length - 2)).length + 1 := by
      rw [hqt_len, hll]
      omega
    rw [hidx, hladeq, List.getD_append_right _ _ _ _ (by omega)]
    simp
  have hFdrop : (f7.take 2 ++ lad).drop 2 = lad := List.drop_left' htl
  have hcomp : compute_hdl_crc lad = compute_hdl_crc (f7.drop 2) := by
    unfold compute_hdl_crc
    congr 1
    rw [hll, hladeq]
    exact List.take_left' hqt_len
  have hF2v : (f7.take 2 ++ lad).getD 2 0 = (f.length - 3) + 1 := by
    rw [hF2, hlad0]
  have hstoreF_hi : (f7.take 2 ++ lad).getD ((f7.take 2 ++ lad).length - 2) 0 =
      crc_hi (compute_hdl_crc ((f7.take 2 ++ lad).drop 2)) := by
    rw [hFdrop, hcomp, hFlen, List.getD_append_right _ _ _ _ (by omega), htl]
    rw [show f.length - 2 - 2 = lad.length - 2 by omega]
    exact hstored_hi
  have hstoreF_lo : (f7.take 2 ++ lad).getD ((f7.take 2 ++ lad).length - 1) 0 =
      crc_lo (compute_hdl_crc ((f7.take 2 ++ lad).drop 2)) := by
    rw [hFdrop, hcomp, hFlen, List.getD_append_right _ _ _ _ (by omega), htl]
    rw [show f.length - 1 - 2 = lad.length - 1 by omega]
    exact hstored_lo
  refine ⟨?_, hFlen, ?_, hstoreF_hi, hstoreF_lo⟩
  · unfold validate_frame
    dsimp only
    rw [hFlen, hF0, hF1, hF2v, hFdrop]
    have hcond : lad.getD (lad.length - 2) 0 = crc_hi (compute_hdl_crc lad) ∧
        lad.getD (lad.length - 1) 0 = crc_lo (compute_hdl_crc lad) := by
      rw [hcomp]
      exact ⟨hstored_hi, hstored_lo⟩
    rw [if_neg (by omega), if_neg (by simp), if_neg (by omega),
      if_neg (by rw [hll, hql]; omega), if_pos hcond]
  · rw [hF2v, hFlen]
    omega

theorem chooseBase_cases {verb : String} {s : Schema} {tv mv : Option Nat}
    {base : List Nat} (h : chooseBase verb s tv mv = .ok base) :
    base = s.base_off_frame ∨ base = s.base_on_frame ∨
    s.base_cool_frame = some base := by
  unfold chooseBase at h
  split_ifs at h with h1 h2
  · simp only [Except.ok.injEq] at h
    exact Or.inl h.symm
  · cases hc : s.base_cool_frame with
    | none =>
      rw [hc] at h
      dsimp only at h
      simp only [Except.ok.injEq] at h
      exact Or.inr (Or.inl h.symm)
    | some cf =>
      rw [hc] at h
      dsimp only at h
      split_ifs at h with h3
      · simp only [Except.ok.injEq] at h
        exact Or.inr (Or.inr (by rw [h]))
      · simp only [Except.ok.injEq] at h
        exact Or.inr (Or.inl h.symm)

theorem discoverTempMode_cool_good {ct ft : Option String}
    {tmc : Option Nat × Option Nat × Option (List Nat)} {cf : List Nat}
    (h : discoverTempMode ct ft = .ok tmc) (hcf : tmc.2.2 = some cf) :
    goodFrame cf := by
  cases ct with
  | none =>
    unfold discoverTempMode at h
    cases ft <;>
      · simp only [Pure.pure, Except.pure, Except.ok.injEq] at h
        rw [← h] at hcf
        simp at hcf
  | some ch =>
    cases ft with
    | none =>
      unfold discoverTempMode at h
      simp only [Pure.pure, Except.pure, Except.ok.injEq] at h
      rw [← h] at hcf
      simp at hcf
    | some fh =>
      obtain ⟨⟨pc, hpc, heq⟩, -⟩ := discoverTempMode_pair_ok h
      rw [heq, Option.some_inj] at hcf
      rw [← hcf]
      exact validate_ok_good (loadTemplate_ok hpc).2

theorem discover_goodFrames {t : Templates} {s : Schema}
    (h : discover_protocol t = .ok s) :
    goodFrame s.base_off_frame ∧ goodFrame s.base_on_frame ∧
    ∀ cf, s.base_cool_frame = some cf → goodFrame cf := by
  obtain ⟨⟨oh1, po, -, hl1, hbo, -⟩, ⟨oh2, pn, -, hl2, hbn⟩, -, ⟨tmc, htmc, hbc⟩⟩ :=
    discover_ok_inv t s h
  refine ⟨?_, ?_, ?_⟩
  · rw [hbo]
    exact validate_ok_good (loadTemplate_ok hl1).2
  · rw [hbn]
    exact validate_ok_good (loadTemplate_ok hl2).2
  · intro cf hcf
    rw [hbc] at hcf
    exact discoverTempMode_cool_good htmc hcf

/-- C3: every frame returned by the builder, from a schema produced by
successful discovery, passes validate_frame: its length byte is one
plus the data-area length and its trailing two bytes are the CRC of
the length byte and data area, split high byte first. -/
theorem built_frames_validate (t : Templates) (s : Schema) (verb : String)
    (subnet device : Nat) (tv mv fv : Option Nat) (F : List Nat)
    (hd : discover_protocol t = .ok s)
    (hb : build_packet verb subnet device s tv mv fv = .ok F) :
    validate_frame F "built" = .ok () ∧
    F.getD 2 0 = 1 + (F.length - 3) ∧
    F.getD (F.length - 2) 0 = crc_hi (compute_hdl_crc (F.drop 2)) ∧
    F.getD (F.length - 1) 0 = crc_lo (compute_hdl_crc (F.drop 2)) := by
  unfold build_packet at hb
  cases hcb : chooseBase verb s tv mv with
  | error e => rw [hcb] at hb; simp [Bind.bind, Except.bind] at hb
  | ok base =>
  rw [hcb] at hb
  simp only [Bind.bind, Except.bind] at hb
  unfold assemble at hb
  cases hwp : writePhase base subnet device s tv mv fv with
  | error e => rw [hwp] at hb; simp [Bind.bind, Except.bind] at hb
  | ok f6 =>
  rw [hwp] at hb
  simp only [Bind.bind, Except.bind] at hb
  have hgood : goodFrame base := by
    obtain ⟨g1, g2, g3⟩ := discover_goodFrames hd
    rcases chooseBase_cases hcb with rfl | rfl | hc
    · exact g1
    · exact g2
    · exact g3 base hc
  obtain ⟨hl6, ht6⟩ := writePhase_inv hwp
  have h56 : 5 ≤ f6.length := by rw [hl6]; exact hgood.1
  have ht62 : f6.take 2 = [170, 170] := by rw [ht6]; exact goodFrame_take2 hgood
  obtain ⟨hval, hFl, hF2, hhi, hlo⟩ := finalize_valid h56 ht62 hb
  refine ⟨hval, ?_, hhi, hlo⟩
  rw [hF2]
  have h5F : 5 ≤ F.length := by rw [hFl]; exact h56
  omega

/-- Frame built from tmplFull for device 1.14 at 22 degrees, cool,
high fan. -/
def FC3 : List Nat :=
  [170, 170, 21, 1, 2, 22, 0, 7, 8, 1, 14, 0, 0, 24, 24, 0, 0, 0, 1, 0, 0, 6, 22]

/-- Witness for C3 at a concrete discovery and build. -/
theorem built_frames_validate_witness :
    discover_protocol tmplFull = .ok schemaFull ∧
    build_packet "on" 1 14 schemaFull (some 22) (some 0) (some 1) = .ok FC3 ∧
    validate_frame FC3 "built" = .ok () :=
  ⟨by decide, by decide,
    (built_frames_validate tmplFull schemaFull "on" 1 14 (some 22) (some 0) (some 1)
      FC3 (by decide) (by decide)).1⟩

/-! ## C6: address byte writes -/

theorem writePhase_none_facts {base : List Nat} {subnet device : Nat} {s : Schema}
    {f6 : List Nat}
    (h : writePhase base subnet device s none none none = .ok f6) :
    f6.getD 9 0 = subnet ∧ f6.getD 10 0 = device ∧
    ∀ j, j ≠ 9 → j ≠ 10 → f6.getD j 0 = base.getD j 0 := by
  unfold writePhase at h
  cases h1 : setB base 9 subnet with
  | error e => rw [h1] at h; simp [Bind.bind, Except.bind] at h
  | ok f1 =>
  rw [h1] at h
  simp only [Bind.bind, Except.bind] at h
  cases h2 : setB f1 10 device with
  | error e => rw [h2] at h; simp at h
  | ok f2 =>
  rw [h2] at h
  dsimp only at h
  cases h3 : writeAddrPositions f2 s.address_positions subnet device with
  | error e => rw [h3] at h; simp at h
  | ok f3 =>
  rw [h3] at h
  dsimp only at h
  rw [optWrite_none] at h
  dsimp only at h
  rw [optWrite_none] at h
  dsimp only at h
  rw [optWrite_none, Except.ok.injEq] at h
  subst h
  obtain ⟨-, -, hne3, hkeep3⟩ := writeAddr_inv h3
  have hf2_9 : f2.getD 9 0 = subnet := by
    rw [setB_getD_ne h2 (by omega), setB_getD_self h1]
  have hf2_10 : f2.getD 10 0 = device := setB_getD_self h2
  obtain ⟨h9, h10⟩ := hkeep3 hf2_9 hf2_10
  refine ⟨h9, h10, ?_⟩
  intro j hj9 hj10
  rw [hne3 j 0 hj9 hj10, setB_getD_ne h2 hj10, setB_getD_ne h1 hj9]

theorem finalize_getD {f F : List Nat} (h : finalize f = .ok F) {j : Nat}
    (h3 : 3 ≤ j) (hj : j < f.length - 2) :
    F.getD j 0 = f.getD j 0 := by
  unfold finalize at h
  cases h7 : setB f 2 ((f.length - 3) + 1) with
  | error e => rw [h7] at h; simp [Bind.bind, Except.bind] at h
  | ok f7 =>
  rw [h7] at h
  simp only [Bind.bind, Except.bind] at h
  cases hla : append_hdl_crc (f7.drop 2) with
  | error e => rw [hla] at h; simp at h
  | ok lad =>
  rw [hla] at h
  dsimp only at h
  simp only [Pure.pure, Except.pure, Except.ok.injEq] at h
  subst h
  have hl7 : f7.length = f.length := setB_len h7
  have htl : (f7.take 2).length = 2 := by
    rw [List.length_take]
    obtain ⟨-, h2f, -⟩ := setB_ok h7
    omega
  obtain ⟨hq2, hladeq⟩ := append_hdl_crc_ok hla
  have hql : (f7.drop 2).length = f.length - 2 := by rw [List.length_drop, hl7]
  have hqt_len : ((f7.drop 2).take ((f7.drop 2).length - 2)).length =
      (f7.drop 2).length - 2 := by
    rw [List.length_take]
    omega
  rw [List.getD_append_right _ _ _ _ (by omega), htl]
  rw [hladeq, List.getD_append _ _ _ _ (by rw [hqt_len]; omega)]
  rw [List.getD_eq_getElem?_getD, List.getElem?_take_of_lt (by omega),
    List.getElem?_drop, ← List.getD_eq_getElem?_getD]
  rw [show 2 + (j - 2) = j by omega]
  exact setB_getD_ne h7 (by omega)

/-- C6 amended: with no overrides supplied, the builder writes the
subnet byte at data-area offset 6 and the device byte at offset 7
(frame indices 9 and 10) unconditionally, and leaves every discovered
address offset other than 6 and 7 untouched in the built frame. -/
theorem builder_address_bytes (subnet device : Nat) (s : Schema) (verb : String)
    (base F : List Nat)
    (hcb : chooseBase verb s none none = .ok base)
    (hb : build_packet verb subnet device s none none none = .ok F)
    (h13 : 13 ≤ base.length) :
    F.getD 9 0 = subnet ∧ F.getD 10 0 = device ∧
    ∀ pos, pos ∈ s.address_positions → pos ≠ 6 → pos ≠ 7 →
      3 + pos < base.length - 2 → F.getD (3 + pos) 0 = base.getD (3 + pos) 0 := by
  unfold build_packet at hb
  rw [hcb] at hb
  simp only [Bind.bind, Except.bind] at hb
  unfold assemble at hb
  cases hwp : writePhase base subnet device s none none none with
  | error e => rw [hwp] at hb; simp [Bind.bind, Except.bind] at hb
  | ok f6 =>
  rw [hwp] at hb
  simp only [Bind.bind, Except.bind] at hb
  obtain ⟨h9, h10, hne⟩ := writePhase_none_facts hwp
  obtain ⟨hl6, -⟩ := writePhase_inv hwp
  refine ⟨?_, ?_, ?_⟩
  · rw [finalize_getD hb (by omega) (by rw [hl6]; omega)]
    exact h9
  · rw [finalize_getD hb (by omega) (by rw [hl6]; omega)]
    exact h10
  · intro pos hmem hp6 hp7 hlt
    rw [finalize_getD hb (by omega) (by rw [hl6]; omega)]
    exact hne (3 + pos) (by omega) (by omega)

/-- Frame built from schemaBasic for subnet 3, device 4, no
overrides. -/
def FC6 : List Nat :=
  [170, 170, 21, 1, 2, 3, 4, 7, 0, 3, 4, 0, 0, 24, 24, 0, 0, 0, 1, 0, 0, 48, 84]

/-- Counterexample to C6: the discovered address-offset set is
[5, 6, 7], yet the byte at offset 5 (frame index 8) keeps the base
template value 0 in the built frame; neither the subnet byte 3 nor
the device byte 4 is written there. -/
theorem address_position_5_ignored_counterexample :
    schemaBasic.address_positions = [5, 6, 7] ∧
    build_packet "on" 3 4 schemaBasic none none none = .ok FC6 ∧
    FC6.getD 8 0 = 0 ∧ FC6.getD 8 0 ≠ 3 ∧ FC6.getD 8 0 ≠ 4 ∧
    schemaBasic.base_on_frame.getD 8 0 = 0 :=
  ⟨rfl, by decide, rfl, by decide, by decide, rfl⟩

/-- Witness for the amended C6 at the concrete schema. -/
theorem builder_address_bytes_witness :
    FC6.getD 9 0 = 3 ∧ FC6.getD 10 0 = 4 ∧
    FC6.getD 8 0 = schemaBasic.base_on_frame.getD 8 0 := by
  obtain ⟨a, b, c⟩ := builder_address_bytes 3 4 schemaBasic "on"
    schemaBasic.base_on_frame FC6 (by decide) (by decide) (by decide)
  exact ⟨a, b, c 5 (by decide) (by decide) (by decide) (by decide)⟩

/-! ## C7: base template selection -/

/-- Cool-mode reference frame inside schemaFull. -/
def coolFrameFull : List Nat :=
  [170, 170, 21, 1, 2, 23, 0, 7, 8, 1, 13, 0, 0, 24, 24, 0, 0, 0, 1, 0, 0, 180, 102]

/-- Frame built from schemaFull with only a fan-speed override. -/
def FC7 : List Nat :=
  [170, 170, 21, 1, 2, 3, 4, 7, 0, 1, 13, 0, 0, 24, 24, 0, 0, 0, 1, 0, 0, 171, 41]

/-- Counterexample to C7: with the richer cool reference present and a
fan-speed override supplied (an override per the claim), the builder
still uses the plain on reference: the built frame keeps the on
reference byte 3 at index 5 where the cool reference has 23. -/
theorem fan_only_override_uses_plain_on_counterexample :
    schemaFull.base_cool_frame = some coolFrameFull ∧
    coolFrameFull ≠ [] ∧
    (some (1 : Nat)).isSome = true ∧
    build_packet "on" 1 13 schemaFull none none (some 1) = .ok FC7 ∧
    FC7.getD 5 0 = 3 ∧ schemaFull.base_on_frame.getD 5 0 = 3 ∧
    coolFrameFull.getD 5 0 = 23 :=
  ⟨rfl, by decide, rfl, by decide, rfl, rfl, rfl⟩

/-- C7 amended: with the richer cool reference present and non-empty,
build_packet with verb on assembles from the cool reference exactly
when a temperature or hvac_mode override is supplied; with neither
supplied (even if a fan-speed override is) it assembles from the plain
on reference; verb off always assembles from the off reference. -/
theorem on_base_selection (s : Schema) (cf : List Nat)
    (hc : s.base_cool_frame = some cf) (hne : cf ≠ []) :
    (∀ subnet device tv mv fv, tv.isSome = true ∨ mv.isSome = true →
      build_packet "on" subnet device s tv mv fv =
        assemble cf subnet device s tv mv fv) ∧
    (∀ subnet device fv,
      build_packet "on" subnet device s none none fv =
        assemble s.base_on_frame subnet device s none none fv) ∧
    (∀ subnet device tv mv fv,
      build_packet "off" subnet device s tv mv fv =
        assemble s.base_off_frame subnet device s tv mv fv) := by
  have hon_off : ¬ (lowerStr "on" = "off") := by decide
  have hon_on : lowerStr "on" = "on" := by decide
  have hoff : lowerStr "off" = "off" := by decide
  refine ⟨?_, ?_, ?_⟩
  · intro subnet device tv mv fv hov
    unfold build_packet chooseBase
    rw [hc, if_neg hon_off, if_pos hon_on]
    dsimp only
    rw [if_pos ⟨hne, hov⟩]
    simp [Bind.bind, Except.bind]
  · intro subnet device fv
    unfold build_packet chooseBase
    rw [hc, if_neg hon_off, if_pos hon_on]
    dsimp only
    rw [if_neg (by simp)]
    simp [Bind.bind, Except.bind]
  · intro subnet device tv mv fv
    unfold build_packet chooseBase
    rw [if_pos hoff]
    simp [Bind.bind, Except.bind]

/-- Witness for the amended C7 at the concrete schema. -/
theorem on_base_selection_witness :
    build_packet "on" 1 13 schemaFull none none (some 1) =
      assemble schemaFull.base_on_frame 1 13 schemaFull none none (some 1) ∧
    build_packet "off" 1 13 schemaFull none none none =
      assemble schemaFull.base_off_frame 1 13 schemaFull none none none := by
  obtain ⟨-, b, c⟩ := on_base_selection schemaFull coolFrameFull (by decide) (by decide)
  exact ⟨b 1 13 (some 1), c 1 13 none none none⟩

end BusproAC
